import Mathlib

/-!
Shallow embedding of the FinderBackend job–worker matching core.

Numbers: JavaScript numeric values are modelled as rationals (`ℚ`) where the
code only parses, compares and averages them, and as reals (`ℝ`) where the
Haversine distance computation needs trigonometry.  A value that may be `NaN`
(the result of `parseFloat` / `Number` on non-numeric input) is modelled as
`Option ℚ`, with `none` standing for `NaN`.
-/

namespace FinderBackend

/-- GeoJSON point as produced by `validateCoordinates` in
`src/utils/locationUtils.js`: `{ type: 'Point', coordinates: [lng, lat] }`.
The `type` field is called `ptype` here because `type` is reserved. -/
structure GeoPoint where
  ptype : String
  coordinates : List ℚ
  deriving Repr, DecidableEq

/-- `validateCoordinates(latitude, longitude)` from `src/utils/locationUtils.js`.
The arguments are the results of `parseFloat` on the raw inputs: `none` is
`NaN` (non-numeric input).  Returns `none` (the source returns `null`) when
either parse failed or a range check fails; otherwise the GeoJSON point with
coordinates `[lng, lat]`.  The function is total: it never throws. -/
def validateCoordinates (latitude longitude : Option ℚ) : Option GeoPoint :=
  match latitude, longitude with
  | some lat, some lng =>
    if lat < -90 ∨ lat > 90 ∨ lng < -180 ∨ lng > 180 then
      none
    else
      some { ptype := "Point", coordinates := [lng, lat] }
  | _, _ => none

/-- `isValidCoordinates(coordinates)` from `src/utils/geolocation.js`.
The input array's elements are `Option ℚ` so that the `isNaN` checks of the
source are represented (`none` = `NaN`).  The source also rejects a point
whose two coordinates are both exactly zero ("default/empty values"). -/
def isValidCoordinates (coordinates : List (Option ℚ)) : Bool :=
  if coordinates.length ≠ 2 then false
  else
    match coordinates.getD 0 none, coordinates.getD 1 none with
    | some lng, some lat =>
      if lng < -180 ∨ lng > 180 then false
      else if lat < -90 ∨ lat > 90 then false
      else if lng = 0 ∧ lat = 0 then false
      else true
    | _, _ => false

/-- The inline registered-location check of `GET /nearby-jobs`
(`src/models/Worker.js`): the request is rejected when the worker has no
location, the coordinates array does not have exactly two entries, or both
coordinates are exactly zero. -/
def hasValidRegisteredLocation (location : Option GeoPoint) : Bool :=
  match location with
  | none => false
  | some loc =>
    if loc.coordinates.length ≠ 2 then false
    else if loc.coordinates.getD 0 0 = 0 ∧ loc.coordinates.getD 1 0 = 0 then false
    else true

/-- A notification subdocument from `src/models/Worker.js`
(`notificationSchema`).  The `type` field is called `ntype` here. -/
structure NotificationRecord where
  ntype : String
  message : String
  job : Option ℕ
  isRead : Bool
  createdAt : ℤ
  deriving Repr, DecidableEq

/-- A worker document from `src/models/Worker.js` (`workerSchema`); fields not
used by the claims (city, pushSubscription) are omitted. -/
structure Worker where
  user : ℕ
  skills : List String
  serviceRadius : ℚ
  location : GeoPoint
  notifications : List NotificationRecord
  rating : ℚ
  completedJobs : ℕ
  categories : List String
  deriving Repr, DecidableEq

/-- A job document from `src/models/Job.js` (`jobSchema`).  `deadline` and
other timestamps are minutes of local time since an arbitrary epoch;
`timeStart` keeps its source representation, a `"HH:MM"` string. -/
structure Job where
  id : ℕ
  title : String
  category : String
  address : String
  location : Option GeoPoint
  deadline : ℤ
  timeStart : String
  status : String
  user : ℕ
  worker : Option ℕ
  rating : Option ℚ
  review : Option String
  deriving Repr, DecidableEq

/-- Splitting a character list on a separator, mirroring JavaScript
`String.prototype.split` with a one-character separator. -/
def splitOnChar (sep : Char) : List Char → List Char → List (List Char)
  | [], acc => [acc.reverse]
  | c :: cs, acc =>
    if c == sep then acc.reverse :: splitOnChar sep cs []
    else splitOnChar sep cs (c :: acc)

/-- `Number` applied to a piece of the `"HH:MM"` string: a non-empty digit
sequence parses to its value, anything else is `NaN` (`none`). -/
def strToNat (l : List Char) : Option ℕ :=
  match l with
  | [] => none
  | _ =>
    l.foldl
      (fun acc c =>
        match acc with
        | some n => if '0' ≤ c ∧ c ≤ '9' then some (10 * n + (c.toNat - 48)) else none
        | none => none)
      (some 0)

/-- `job.timeStart.split(':').map(Number)` from the job-location route in
`src/models/Worker.js`, restricted to the well-formed case: exactly two
pieces, both numerals, otherwise `none` (in the source a malformed string
yields `NaN` components and an invalid date). -/
def parseTimeStart (s : String) : Option (ℕ × ℕ) :=
  match splitOnChar ':' s.toList [] with
  | [hs, ms] =>
    match strToNat hs, strToNat ms with
    | some h, some m => some (h, m)
    | _, _ => none
  | _ => none

/-- `new Date(job.deadline)` followed by `setHours(h, m, 0, 0)` keeps the
deadline's calendar day and replaces the time of day.  In the minutes-based
model the start of the deadline's day is `t - t % 1440`. -/
def dayStart (t : ℤ) : ℤ := t - t % 1440

/-- The JSON body answered by `GET /job-location/:jobId`
(`src/models/Worker.js`): fields absent from a branch of the source response
are `none`. -/
structure DisclosureResponse where
  available : Bool
  exactLocation : Option (ℚ × ℚ)
  exactAddress : Option String
  message : Option String
  revealTime : Option ℤ
  deriving Repr, DecidableEq

/-- The disclosure gate of `GET /job-location/:jobId` in
`src/models/Worker.js`, for a job already found and owned by the requesting
worker.  `exactLocation` is `(latitude, longitude)` = coordinates `[1]`,`[0]`
as in the source response.  `none` overall models the malformed-`timeStart` /
missing-location paths, which the claims do not touch. -/
def checkDisclosure (job : Job) (now : ℤ) : Option DisclosureResponse :=
  match parseTimeStart job.timeStart, job.location with
  | some (h, m), some loc =>
    let jobStart := dayStart job.deadline + 60 * h + m
    let revealTime := jobStart - 180
    if revealTime ≤ now then
      some { available := true,
             exactLocation := some (loc.coordinates.getD 1 0, loc.coordinates.getD 0 0),
             exactAddress := some job.address,
             message := none,
             revealTime := none }
    else
      some { available := false,
             exactLocation := none,
             exactAddress := none,
             message := some "Exact location will be available 3 hours before the job starts",
             revealTime := some revealTime }
  | _, _ => none

/-- `acceptJob` from `src/controllers/jobController.js` (the same checks as
`POST /:id/accept` in the jobs router): the pair is (response, job state after
the call); on the conflict branch the job is left untouched. -/
def acceptJob (job : Job) (workerId : ℕ) : Except String Job × Job :=
  if job.status ≠ "pending" ∨ job.worker.isSome then
    (Except.error "Job is no longer available", job)
  else
    let updated := { job with worker := some workerId, status := "in progress" }
    (Except.ok updated, updated)

/-- JavaScript `toLowerCase()` on the character data of a string. -/
def lowerStr (s : String) : String :=
  String.mk (s.toList.map Char.toLower)

/-- The closed category list of the pre-save hook in `src/models/Worker.js`
(`validCategories`); it deliberately excludes the fallback `general`. -/
def validCategories : List String :=
  ["plumbing", "electrical", "carpentry", "painting", "cleaning", "gardening",
   "moving", "appliance_repair", "hvac", "roofing", "other"]

/-- One skill mapped by the pre-save hook:
`validCategories.find(cat => cat.toLowerCase() === skill.toLowerCase()) || 'general'`. -/
def skillToCategory (skill : String) : String :=
  match validCategories.find? (fun cat => lowerStr cat == lowerStr skill) with
  | some cat => cat
  | none => "general"

/-- `workerSchema.pre('save')` from `src/models/Worker.js`.  The source first
maps string coordinates through `parseFloat`, which is the identity in this
numeric model; then, when the document has no categories but has skills, it
derives the categories from the skills. -/
def workerPreSave (w : Worker) : Worker :=
  if w.categories.length = 0 ∧ w.skills.length > 0 then
    { w with categories := w.skills.map skillToCategory }
  else
    w

/-- The category-filter guard of `GET /nearby-jobs` in `src/models/Worker.js`:
the query is restricted to the worker's categories only when the list is
non-empty and is not exactly the one-element list containing `general`. -/
def categoryFilterApplied (categories : List String) : Bool :=
  categories.length > 0 && !(categories.length == 1 && categories.contains "general")

/-- Whether a job with the given category passes the category part of the
nearby-jobs query for a worker with the given category list: when the filter
is applied the query demands `category ∈ worker.categories`, otherwise every
category passes. -/
def nearbyCategoryMatch (categories : List String) (jobCategory : String) : Bool :=
  if categoryFilterApplied categories then categories.contains jobCategory else true

/-- Prefix test on character lists (auxiliary for the substring test). -/
def isPrefixList (needle hay : List Char) : Bool :=
  match needle, hay with
  | [], _ => true
  | _ :: _, [] => false
  | a :: as, b :: bs => a == b && isPrefixList as bs

/-- Substring test on character lists (auxiliary for the regex test). -/
def hasSubList (needle hay : List Char) : Bool :=
  match hay with
  | [] => needle.isEmpty
  | c :: tl => isPrefixList needle (c :: tl) || hasSubList needle tl

/-- `new RegExp(pattern, 'i').test(hay)` for the patterns this code base
builds from job categories: the closed category enumeration contains no regex
metacharacters, so the test is a case-insensitive substring match. -/
def containsCI (hay pattern : String) : Bool :=
  hasSubList (lowerStr pattern).toList (lowerStr hay).toList

/-- The worker query of `sendNotificationsToMatchingWorkers` in
`src/utils/notifications.js`: `$or` of a fuzzy match of the job's category
against the worker's skills and against the worker's categories; no
geographic restriction appears in the query. -/
def fuzzyMatchWorker (jobCategory : String) (w : Worker) : Bool :=
  w.skills.any (fun s => containsCI s jobCategory) ||
  w.categories.any (fun c => containsCI c jobCategory)

/-- The notification object built per matching worker by
`sendNotificationsToMatchingWorkers`. -/
def newJobNotification (job : Job) (now : ℤ) : NotificationRecord :=
  { ntype := "new_job",
    message := "New job available: " ++ job.title,
    job := some job.id,
    isRead := false,
    createdAt := now }

/-- `sendNotificationsToMatchingWorkers(job)` from
`src/utils/notifications.js`, over an explicit worker registry: when the job
has no category (`!job.category`, i.e. the empty string here) the function
returns with no change; otherwise every worker matching the fuzzy query gets
the notification pushed onto their list.  Push delivery is external and
side-effect free on the registry. -/
def sendNotificationsToMatchingWorkers (job : Job) (now : ℤ)
    (workers : List Worker) : List Worker :=
  if job.category = "" then workers
  else
    workers.map (fun w =>
      if fuzzyMatchWorker job.category w then
        { w with notifications := w.notifications ++ [newJobNotification job now] }
      else w)

/-- The arithmetic mean of the `rating` field over the jobs of the given
worker that have a rating — the quantity named by the specification. -/
def ratedMean (jobs : List Job) (worker : Option ℕ) : ℚ :=
  let rated := jobs.filter (fun j => j.worker == worker && j.rating.isSome)
  (rated.map (fun j => j.rating.getD 0)).sum / (rated.length : ℚ)

/-- `addReview` from `src/controllers/jobController.js` (the same logic as
`POST /:id/review` in the jobs router), over an explicit job store and a map
from user id to stored rating.  The source's
`workerJobs.reduce((acc, job) => acc + job.rating, 0) / workerJobs.length`
is the `foldl` here; `Job.find({worker, rating: {$exists: true}})` is the
filter, run against the store after the reviewed job was saved. -/
def addReview (jobs : List Job) (userRating : ℕ → ℚ) (jobId callerId : ℕ)
    (rating : ℚ) (review : String) : Except String (List Job × (ℕ → ℚ)) :=
  match jobs.find? (fun j => j.id == jobId) with
  | none => Except.error "Job not found"
  | some job =>
    if job.user ≠ callerId then Except.error "Not authorized"
    else if job.status ≠ "completed" then Except.error "Can only review completed jobs"
    else
      let updatedJobs := jobs.map (fun j =>
        if j.id == jobId then { j with rating := some rating, review := some review }
        else j)
      let workerJobs := updatedJobs.filter
        (fun j => j.worker == job.worker && j.rating.isSome)
      let averageRating :=
        workerJobs.foldl (fun acc j => acc + j.rating.getD 0) 0 / (workerJobs.length : ℚ)
      Except.ok (updatedJobs,
        fun uid => if job.worker == some uid then averageRating else userRating uid)

/-- `(value * Math.PI) / 180`, the degree-to-radian helper shared by both
distance implementations. -/
noncomputable def toRad (value : ℝ) : ℝ := value * Real.pi / 180

/-- JavaScript `Math.atan2(y, x)` over the reals (the signed-zero distinction
of IEEE 754 does not exist here). -/
noncomputable def jsAtan2 (y x : ℝ) : ℝ :=
  if 0 < x then Real.arctan (y / x)
  else if x < 0 then
    (if 0 ≤ y then Real.arctan (y / x) + Real.pi else Real.arctan (y / x) - Real.pi)
  else if 0 < y then Real.pi / 2
  else if y < 0 then -(Real.pi / 2)
  else 0

/-- JavaScript `Math.round`: nearest integer, halves toward positive
infinity. -/
noncomputable def jsRound (x : ℝ) : ℤ := ⌊x + 1 / 2⌋

/-- The quantity `a` of the Haversine formula as written identically in
`src/utils/locationUtils.js` and `src/utils/geolocation.js`:
`sin(dLat/2)² + cos(lat1)·cos(lat2)·sin(dLng/2)²` (in radians). -/
noncomputable def haversineA (lng1 lat1 lng2 lat2 : ℝ) : ℝ :=
  Real.sin (toRad (lat2 - lat1) / 2) * Real.sin (toRad (lat2 - lat1) / 2) +
  Real.cos (toRad lat1) * Real.cos (toRad lat2) *
    (Real.sin (toRad (lng2 - lng1) / 2) * Real.sin (toRad (lng2 - lng1) / 2))

/-- `R * c` of the shared Haversine formula with `R = 6371` km and
`c = 2 * atan2(sqrt(a), sqrt(1-a))`. -/
noncomputable def haversineKm (lng1 lat1 lng2 lat2 : ℝ) : ℝ :=
  let a := haversineA lng1 lat1 lng2 lat2
  let c := 2 * jsAtan2 (Real.sqrt a) (Real.sqrt (1 - a))
  6371 * c

/-- `calculateDistance(coords1, coords2)` from `src/utils/locationUtils.js`:
sentinel `-1` when either array has fewer than two components, otherwise the
Haversine distance in km rounded to one decimal place. -/
noncomputable def calculateDistance (coords1 coords2 : List ℝ) : ℝ :=
  if coords1.length < 2 ∨ coords2.length < 2 then -1
  else
    (jsRound (haversineKm (coords1.getD 0 0) (coords1.getD 1 0)
        (coords2.getD 0 0) (coords2.getD 1 0) * 10) : ℝ) / 10

/-- `calculateDistance(coords1, coords2)` from `src/utils/geolocation.js`:
the same formula, destructuring its `[lng, lat]` pairs without a sentinel
check. -/
noncomputable def geoCalculateDistance (coords1 coords2 : ℝ × ℝ) : ℝ :=
  (jsRound (haversineKm coords1.1 coords1.2 coords2.1 coords2.2 * 10) : ℝ) / 10

/-- JavaScript `split` with a one-character separator producing strings. -/
def splitString (sep : Char) (s : String) : List String :=
  (splitOnChar sep s.toList []).map String.mk

/-- JavaScript `trim()`: strip whitespace from both ends. -/
def strTrim (s : String) : String :=
  String.mk (((s.toList.dropWhile Char.isWhitespace).reverse.dropWhile
    Char.isWhitespace).reverse)

/-- JavaScript `Array.prototype.join(',')`. -/
def joinWithComma : List String → String
  | [] => ""
  | [s] => s
  | s :: rest => s ++ "," ++ joinWithComma rest

/-- `getApproximateAddress(address)` from `src/utils/geolocation.js`:
`'Unknown'` for an empty address, the address itself when it has no comma,
otherwise everything after the first comma, trimmed. -/
def getApproximateAddress (address : String) : String :=
  if address = "" then "Unknown"
  else
    let addressParts := splitString ',' address
    if addressParts.length > 1 then strTrim (joinWithComma (addressParts.drop 1))
    else address

/-- One entry of the `GET /nearby-jobs` response
(`jobsWithApproximateLocation` in `src/models/Worker.js`): the job object
with `approximateLocation` and `distance` added and `location` deleted
(`none`).  Job fields irrelevant to the claims are dropped. -/
structure NearbyJobView where
  title : String
  address : String
  status : String
  approximateLocation : String
  distance : Option ℝ
  location : Option GeoPoint

/-- The per-job transformation of `GET /nearby-jobs` in
`src/models/Worker.js`: `addressParts = job.address ? job.address.split(',')
: ['Unknown']`, the approximate location keeps everything after the first
comma (or the full address when there is at most one part), the distance is
computed from the worker's registered coordinates when the job has a
location, and the exact `location` is deleted. -/
noncomputable def nearbyJobView (worker : Worker) (job : Job) : NearbyJobView :=
  let addressParts := if job.address = "" then ["Unknown"] else splitString ',' job.address
  let approx :=
    if addressParts.length > 1 then strTrim (joinWithComma (addressParts.drop 1))
    else job.address
  let dist :=
    match job.location with
    | some loc => some (calculateDistance
        (worker.location.coordinates.map (fun q => (q : ℝ)))
        (loc.coordinates.map (fun q => (q : ℝ))))
    | none => none
  { title := job.title, address := job.address, status := job.status,
    approximateLocation := approx, distance := dist, location := none }

/-- A fixed job used to instantiate universally quantified theorems. -/
def sampleJob : Job :=
  { id := 1, title := "Fix sink", category := "plumbing",
    address := "12 MG Road, Indiranagar, Bengaluru",
    location := some { ptype := "Point", coordinates := [77.209, 28.6139] },
    deadline := 1440 * 20000, timeStart := "10:00", status := "pending",
    user := 7, worker := none, rating := none, review := none }

/-- A fixed worker with skills but no categories yet, used to instantiate
universally quantified theorems. -/
def sampleWorker : Worker :=
  { user := 3, skills := ["Plumbing", "welding"], serviceRadius := 50,
    location := { ptype := "Point", coordinates := [77, 28] },
    notifications := [], rating := 0, completedJobs := 0, categories := [] }

/-- A completed job of worker `w` with id `i` and stored rating `r`, used to
instantiate the rating-aggregation claims. -/
def ratedJob (i w : ℕ) (r : Option ℚ) : Job :=
  { id := i, title := "t", category := "cleaning", address := "a, b",
    location := none, deadline := 0, timeStart := "09:00",
    status := "completed", user := 7, worker := some w, rating := r,
    review := none }

/-- Worker 9's jobs: two already rated 5 and 4, one completed and unrated. -/
def reviewJobs : List Job :=
  [ratedJob 10 9 (some 5), ratedJob 20 9 (some 4), ratedJob 30 9 none]

end FinderBackend

namespace FinderBackend

/-- Folding addition of a mapped value over a list equals the initial value
plus the sum of the mapped list (the `reduce`-to-mean bridge). -/
theorem foldl_add_map_sum (f : Job → ℚ) (l : List Job) (init : ℚ) :
    l.foldl (fun acc j => acc + f j) init = init + (l.map f).sum := by
  induction l generalizing init with
  | nil => simp
  | cons j t ih => rw [List.foldl_cons, ih, List.map_cons, List.sum_cons]; ring

end FinderBackend

namespace FinderBackend

/-- C4: dispatch for a job with a category relates the worker registry to its
updated form pointwise: a matching worker (fuzzy skill/category match, no
distance restriction in the query) gets exactly one appended record — of type
`new_job` and unread — and a non-matching worker is untouched; a job with no
category leaves the registry unchanged. -/
theorem sendNotifications_spec (job : Job) (now : ℤ) (workers : List Worker) :
    (newJobNotification job now).ntype = "new_job" ∧
    (newJobNotification job now).isRead = false ∧
    (job.category = "" → sendNotificationsToMatchingWorkers job now workers = workers) ∧
    (job.category ≠ "" →
      List.Forall₂
        (fun w w2 =>
          (fuzzyMatchWorker job.category w = true →
            w2 = { w with notifications :=
                     w.notifications ++ [newJobNotification job now] }) ∧
          (fuzzyMatchWorker job.category w = false → w2 = w))
        workers (sendNotificationsToMatchingWorkers job now workers)) := by
  refine ⟨rfl, rfl, ?_, ?_⟩
  · intro h
    unfold sendNotificationsToMatchingWorkers
    rw [if_pos h]
  · intro h
    unfold sendNotificationsToMatchingWorkers
    rw [if_neg h]
    induction workers with
    | nil => exact List.Forall₂.nil
    | cons w ws ih =>
      rw [List.map_cons]
      exact List.Forall₂.cons
        ⟨fun hm => by rw [if_pos hm], fun hm => by simp [hm]⟩ ih

/-- Witness for C4: `sendNotifications_spec` at the sample plumbing job and
the one-worker registry containing the sample worker. -/
theorem sendNotifications_spec_witness :
    List.Forall₂
      (fun w w2 =>
        (fuzzyMatchWorker sampleJob.category w = true →
          w2 = { w with notifications :=
                   w.notifications ++ [newJobNotification sampleJob 5] }) ∧
        (fuzzyMatchWorker sampleJob.category w = false → w2 = w))
      [sampleWorker] (sendNotificationsToMatchingWorkers sampleJob 5 [sampleWorker]) :=
  (sendNotifications_spec sampleJob 5 [sampleWorker]).2.2.2 (by decide)

/-- C3: submitting a review for a completed job of an assigned worker stores,
as the worker's aggregate rating, the arithmetic mean of the ratings over all
of that worker's rated jobs in the post-review store (the just-reviewed job
included); in particular worker 9 with prior rated jobs [5, 4] and a new
rating 3 ends with aggregate rating 4. -/
theorem addReview_spec :
    (∀ (jobs : List Job) (userRating : ℕ → ℚ) (jobId callerId : ℕ)
       (rating : ℚ) (review : String) (job : Job) (w : ℕ),
      jobs.find? (fun j => j.id == jobId) = some job →
      job.user = callerId → job.status = "completed" → job.worker = some w →
      ∃ updatedJobs users2,
        addReview jobs userRating jobId callerId rating review =
          Except.ok (updatedJobs, users2) ∧
        users2 w = ratedMean updatedJobs (some w)) ∧
    (∃ js us, addReview reviewJobs (fun _ => 0) 30 7 3 "good" =
        Except.ok (js, us) ∧ us 9 = 4) := by
  constructor
  · intro jobs userRating jobId callerId rating review job w hfind huser hstat hw
    unfold addReview
    rw [hfind]
    dsimp only
    rw [if_neg (fun hne => hne huser)]
    rw [if_neg (fun hne => hne hstat)]
    refine ⟨_, _, rfl, ?_⟩
    simp only [hw, beq_self_eq_true, if_pos]
    unfold ratedMean
    rw [foldl_add_map_sum, zero_add]
  · refine ⟨_, _, rfl, ?_⟩
    norm_num [addReview, reviewJobs, ratedJob]

/-- Witness for C3: `addReview_spec` at worker 9's job store; the stored
rating equals the mean over the rated jobs of the updated store. -/
theorem addReview_spec_witness :
    ∃ js us, addReview reviewJobs (fun _ => 0) 30 7 3 "good" =
      Except.ok (js, us) ∧ us 9 = ratedMean js (some 9) :=
  addReview_spec.1 reviewJobs (fun _ => 0) 30 7 3 "good" (ratedJob 30 9 none) 9
    rfl rfl rfl rfl

/-- The Haversine `a` term is symmetric in its two points. -/
theorem haversineA_comm (lng1 lat1 lng2 lat2 : ℝ) :
    haversineA lng1 lat1 lng2 lat2 = haversineA lng2 lat2 lng1 lat1 := by
  unfold haversineA toRad
  have h1 : (lat1 - lat2) * Real.pi / 180 / 2 = -((lat2 - lat1) * Real.pi / 180 / 2) := by
    ring
  have h2 : (lng1 - lng2) * Real.pi / 180 / 2 = -((lng2 - lng1) * Real.pi / 180 / 2) := by
    ring
  rw [h1, h2, Real.sin_neg, Real.sin_neg]
  ring

/-- The rounded Haversine distance is symmetric in its two points. -/
theorem haversineKm_comm (lng1 lat1 lng2 lat2 : ℝ) :
    haversineKm lng1 lat1 lng2 lat2 = haversineKm lng2 lat2 lng1 lat1 := by
  unfold haversineKm
  rw [haversineA_comm]

/-- The Haversine `a` term vanishes on identical points. -/
theorem haversineA_self (lng lat : ℝ) : haversineA lng lat lng lat = 0 := by
  unfold haversineA toRad
  simp

/-- The Haversine distance vanishes on identical points. -/
theorem haversineKm_self (lng lat : ℝ) : haversineKm lng lat lng lat = 0 := by
  simp only [haversineKm, haversineA_self]
  norm_num [jsAtan2, Real.arctan_zero, Real.sqrt_zero, Real.sqrt_one]

/-- Rounding zero to one decimal is zero. -/
theorem jsRound_zero : jsRound 0 = 0 := by
  unfold jsRound
  rw [Int.floor_eq_zero_iff]
  norm_num

/-- C9: both distance implementations are symmetric —
`distanceKm(a,b) = distanceKm(b,a)` (exactly, in the real-number model) —
and yield 0 on identical valid points. -/
theorem calculateDistance_symm_self :
    (∀ coords1 coords2 : List ℝ,
      calculateDistance coords1 coords2 = calculateDistance coords2 coords1) ∧
    (∀ p : List ℝ, 2 ≤ p.length → calculateDistance p p = 0) ∧
    (∀ a b : ℝ × ℝ, geoCalculateDistance a b = geoCalculateDistance b a) ∧
    (∀ p : ℝ × ℝ, geoCalculateDistance p p = 0) := by
  refine ⟨?_, ?_, ?_, ?_⟩
  · intro c1 c2
    unfold calculateDistance
    by_cases h : c1.length < 2 ∨ c2.length < 2
    · rw [if_pos h, if_pos (h.elim Or.inr Or.inl)]
    · rw [if_neg h, if_neg (fun hc => h (hc.elim Or.inr Or.inl)), haversineKm_comm]
  · intro p hp
    unfold calculateDistance
    rw [if_neg (by omega : ¬(p.length < 2 ∨ p.length < 2)), haversineKm_self,
      zero_mul, jsRound_zero]
    norm_num
  · intro a b
    unfold geoCalculateDistance
    rw [haversineKm_comm]
  · intro p
    unfold geoCalculateDistance
    rw [haversineKm_self, zero_mul, jsRound_zero]
    norm_num

/-- Witness for C9: the distance from a Delhi-area point to itself is 0. -/
theorem calculateDistance_symm_self_witness :
    calculateDistance [77.209, 28.6139] [77.209, 28.6139] = 0 :=
  calculateDistance_symm_self.2.1 [77.209, 28.6139] (by decide)

/-- C6: every nearby-jobs result omits the precise `location` field, carries
the computed distance from the worker's registered coordinates to the job's
coordinates, and carries an `approximateLocation` equal to the job's address
with its first comma-delimited segment removed (it agrees with the standalone
`getApproximateAddress` helper on every non-empty address). -/
theorem nearbyJobView_spec (w : Worker) (job : Job) (loc : GeoPoint)
    (hloc : job.location = some loc) (haddr : job.address ≠ "") :
    (nearbyJobView w job).location = none ∧
    (nearbyJobView w job).distance =
      some (calculateDistance (w.location.coordinates.map (fun q => (q : ℝ)))
        (loc.coordinates.map (fun q => (q : ℝ)))) ∧
    (nearbyJobView w job).approximateLocation = getApproximateAddress job.address ∧
    ((splitString ',' job.address).length > 1 →
      (nearbyJobView w job).approximateLocation =
        strTrim (joinWithComma ((splitString ',' job.address).drop 1))) := by
  unfold nearbyJobView getApproximateAddress
  rw [hloc, if_neg haddr, if_neg haddr]
  dsimp only
  refine ⟨rfl, rfl, rfl, fun hlen => ?_⟩
  rw [if_pos hlen]

/-- Witness for C6: `nearbyJobView_spec` at the sample worker and job; the
approximate location of "12 MG Road, Indiranagar, Bengaluru" is
"Indiranagar, Bengaluru". -/
theorem nearbyJobView_spec_witness :
    (nearbyJobView sampleWorker sampleJob).location = none ∧
    (nearbyJobView sampleWorker sampleJob).approximateLocation =
      getApproximateAddress sampleJob.address ∧
    getApproximateAddress sampleJob.address = "Indiranagar, Bengaluru" := by
  have h := nearbyJobView_spec sampleWorker sampleJob
    { ptype := "Point", coordinates := [77.209, 28.6139] } rfl (by decide)
  exact ⟨h.1, h.2.2.1, by decide⟩

end FinderBackend

namespace FinderBackend

/-- C1: coordinate validation returns Invalid (`none`) exactly when a value is
non-numeric or out of range, and on success returns the GeoJSON point with
longitude first and latitude second, never transposed.  (The embedding is a
total function, so the operation never throws.) -/
theorem validateCoordinates_spec (latRaw lngRaw : Option ℚ) :
    ((latRaw = none ∨ lngRaw = none) → validateCoordinates latRaw lngRaw = none) ∧
    (∀ lat lng : ℚ, latRaw = some lat → lngRaw = some lng →
      ((lat < -90 ∨ lat > 90 ∨ lng < -180 ∨ lng > 180) →
        validateCoordinates latRaw lngRaw = none) ∧
      (-90 ≤ lat → lat ≤ 90 → -180 ≤ lng → lng ≤ 180 →
        validateCoordinates latRaw lngRaw =
          some { ptype := "Point", coordinates := [lng, lat] })) := by
  constructor
  · rintro (rfl | rfl)
    · rfl
    · cases latRaw <;> rfl
  · rintro lat lng rfl rfl
    constructor
    · intro hbad
      simp only [validateCoordinates, if_pos hbad]
    · intro h1 h2 h3 h4
      have hnot : ¬ (lat < -90 ∨ lat > 90 ∨ lng < -180 ∨ lng > 180) := by
        push_neg
        exact ⟨by linarith, by linarith, by linarith, by linarith⟩
      simp only [validateCoordinates, if_neg hnot]

/-- Witness for C1: concrete instantiations of `validateCoordinates_spec`
covering the success case (order `[lng, lat]`), a parse failure, and an
out-of-range latitude. -/
theorem validateCoordinates_spec_witness :
    validateCoordinates (some 28) (some 77) =
      some { ptype := "Point", coordinates := [77, 28] } ∧
    validateCoordinates none (some 77) = none ∧
    validateCoordinates (some 91) (some 0) = none := by
  refine ⟨?_, ?_, ?_⟩
  · exact ((validateCoordinates_spec (some 28) (some 77)).2 28 77 rfl rfl).2
      (by norm_num) (by norm_num) (by norm_num) (by norm_num)
  · exact (validateCoordinates_spec none (some 77)).1 (Or.inl rfl)
  · exact ((validateCoordinates_spec (some 91) (some 0)).2 91 0 rfl rfl).1
      (by norm_num)

/-- C10: the validator used by job creation and worker-location update accepts
the point (0,0) (returning coordinates `[0,0]`), while the standalone
`isValidCoordinates` helper and the inline nearby-jobs registered-location
check both treat a point whose coordinates are both exactly zero as
unset/invalid. -/
theorem zero_zero_accepted_by_validator_rejected_by_nearby :
    validateCoordinates (some 0) (some 0) =
      some { ptype := "Point", coordinates := [0, 0] } ∧
    isValidCoordinates [some 0, some 0] = false ∧
    hasValidRegisteredLocation
      (validateCoordinates (some 0) (some 0)) = false := by
  refine ⟨by decide, by decide, by decide⟩

/-- Helper: the general behaviour of the disclosure gate, split out so that
the boundary instances can reuse it. -/
theorem checkDisclosure_gate (job : Job) (now : ℤ) (h m : ℕ) (loc : GeoPoint)
    (hparse : parseTimeStart job.timeStart = some (h, m))
    (hloc : job.location = some loc) :
    ∃ resp, checkDisclosure job now = some resp ∧
      (resp.available = true ↔ dayStart job.deadline + 60 * h + m - 180 ≤ now) ∧
      (resp.available = false →
        resp.revealTime = some (dayStart job.deadline + 60 * h + m - 180) ∧
        resp.exactLocation = none ∧ resp.exactAddress = none) := by
  unfold checkDisclosure
  rw [hparse, hloc]
  dsimp only
  by_cases hge : dayStart job.deadline + 60 * (h : ℤ) + (m : ℤ) - 180 ≤ now
  · rw [if_pos hge]
    exact ⟨_, rfl, by simp [hge], by simp⟩
  · rw [if_neg hge]
    exact ⟨_, rfl, by simp [hge], fun _ => ⟨rfl, rfl, rfl⟩⟩

/-- C2: the location-disclosure check reports `available = true` iff the
current time is at or after the deadline's day combined with `timeStart`
minus 3 hours; when it reports `available = false` the response carries the
reveal time and omits the exact coordinates and address.  For `timeStart`
`"10:00"` the query at 06:55 of the deadline's day yields `false` and at
07:05 it yields `true`. -/
theorem checkDisclosure_spec :
    (∀ (job : Job) (now : ℤ) (h m : ℕ) (loc : GeoPoint),
      parseTimeStart job.timeStart = some (h, m) → job.location = some loc →
      ∃ resp, checkDisclosure job now = some resp ∧
        (resp.available = true ↔ dayStart job.deadline + 60 * h + m - 180 ≤ now) ∧
        (resp.available = false →
          resp.revealTime = some (dayStart job.deadline + 60 * h + m - 180) ∧
          resp.exactLocation = none ∧ resp.exactAddress = none)) ∧
    (∀ (job : Job) (d : ℤ), job.timeStart = "10:00" → job.deadline = 1440 * d →
      job.location.isSome = true →
      (checkDisclosure job (1440 * d + 6 * 60 + 55)).map DisclosureResponse.available
        = some false ∧
      (checkDisclosure job (1440 * d + 7 * 60 + 5)).map DisclosureResponse.available
        = some true) := by
  constructor
  · exact checkDisclosure_gate
  · intro job d hts hdl hloc
    obtain ⟨loc, hl⟩ := Option.isSome_iff_exists.mp hloc
    have hparse : parseTimeStart job.timeStart = some (10, 0) := by
      rw [hts]; rfl
    have hday : dayStart job.deadline = 1440 * d := by
      rw [hdl]; unfold dayStart; omega
    obtain ⟨r1, hr1, hiff1, _⟩ :=
      checkDisclosure_gate job (1440 * d + 6 * 60 + 55) 10 0 loc hparse hl
    obtain ⟨r2, hr2, hiff2, _⟩ :=
      checkDisclosure_gate job (1440 * d + 7 * 60 + 5) 10 0 loc hparse hl
    constructor
    · rw [hr1]
      have hav : r1.available = false := by
        cases hv : r1.available
        · rfl
        · exfalso
          have := hiff1.mp hv
          rw [hday] at this
          omega
      simp [hav]
    · rw [hr2]
      have hav : r2.available = true := by
        rw [hiff2, hday]
        push_cast
        omega
      simp [hav]

/-- Witness for C2: the boundary instances of `checkDisclosure_spec` at the
sample job (`timeStart = "10:00"`, deadline on day 20000). -/
theorem checkDisclosure_spec_witness :
    (checkDisclosure sampleJob (1440 * 20000 + 6 * 60 + 55)).map
        DisclosureResponse.available = some false ∧
    (checkDisclosure sampleJob (1440 * 20000 + 7 * 60 + 5)).map
        DisclosureResponse.available = some true :=
  checkDisclosure_spec.2 sampleJob 20000 rfl rfl rfl

/-- C7: accepting a pending, unassigned job succeeds, assigns the caller and
moves the status to "in progress"; a second accept on the resulting job fails
with the conflict error and leaves the job's worker and status unchanged. -/
theorem acceptJob_conflict_on_second_call (job : Job) (w : ℕ)
    (hs : job.status = "pending") (hw : job.worker = none) :
    ∃ updated : Job,
      acceptJob job w = (Except.ok updated, updated) ∧
      updated.worker = some w ∧
      updated.status = "in progress" ∧
      ∀ w2 : ℕ, acceptJob updated w2 =
        (Except.error "Job is no longer available", updated) := by
  have hcond : ¬ (job.status ≠ "pending" ∨ job.worker.isSome) := by
    rw [hs, hw]
    simp
  refine ⟨{ job with worker := some w, status := "in progress" }, ?_, rfl, rfl, ?_⟩
  · unfold acceptJob
    rw [if_neg hcond]
  · intro w2
    unfold acceptJob
    rw [if_pos (Or.inl (show ("in progress" : String) ≠ "pending" by decide))]

/-- Witness for C7: `acceptJob_conflict_on_second_call` at the sample pending
job and worker 42; the first call succeeds and the second call on the updated
job is the conflict error. -/
theorem acceptJob_conflict_on_second_call_witness :
    ∃ updated : Job,
      acceptJob sampleJob 42 = (Except.ok updated, updated) ∧
      updated.worker = some 42 ∧
      updated.status = "in progress" ∧
      ∀ w2 : ℕ, acceptJob updated w2 =
        (Except.error "Job is no longer available", updated) :=
  acceptJob_conflict_on_second_call sampleJob 42 rfl rfl

/-- C8: saving a worker with no categories and a non-empty skill list derives
one category per skill — the category whose lower-cased name equals the
lower-cased skill, or `general` when no category of the closed enumeration
matches; saving a worker that already has a category leaves the categories
untouched. -/
theorem workerPreSave_spec (w : Worker) :
    (w.categories = [] → w.skills ≠ [] →
      (workerPreSave w).categories = w.skills.map skillToCategory) ∧
    (w.categories ≠ [] → (workerPreSave w).categories = w.categories) ∧
    (∀ s : String,
      ((∃ c ∈ validCategories, lowerStr c = lowerStr s) →
        skillToCategory s ∈ validCategories ∧
        lowerStr (skillToCategory s) = lowerStr s) ∧
      ((∀ c ∈ validCategories, lowerStr c ≠ lowerStr s) →
        skillToCategory s = "general")) := by
  refine ⟨?_, ?_, ?_⟩
  · intro hcat hsk
    unfold workerPreSave
    rw [if_pos]
    constructor
    · rw [hcat]; rfl
    · exact List.length_pos.mpr hsk
  · intro hcat
    unfold workerPreSave
    rw [if_neg]
    intro hcond
    exact hcat (List.length_eq_zero.mp hcond.1)
  · intro s
    constructor
    · intro hex
      unfold skillToCategory
      cases hfind : validCategories.find? (fun cat => lowerStr cat == lowerStr s) with
      | none =>
        exfalso
        obtain ⟨c, hc, hlc⟩ := hex
        have := List.find?_eq_none.mp hfind c hc
        exact this (beq_iff_eq.mpr hlc)
      | some cat =>
        have hp := List.find?_some hfind
        simp only [beq_iff_eq] at hp
        exact ⟨List.mem_of_find?_eq_some hfind, hp⟩
    · intro hall
      unfold skillToCategory
      cases hfind : validCategories.find? (fun cat => lowerStr cat == lowerStr s) with
      | none => rfl
      | some cat =>
        exfalso
        have hp := List.find?_some hfind
        simp only [beq_iff_eq] at hp
        exact hall cat (List.mem_of_find?_eq_some hfind) hp

/-- Witness for C8: the pre-save hook on a worker with skills
`["Plumbing", "welding"]` and no categories derives
`["plumbing", "general"]`. -/
theorem workerPreSave_spec_witness :
    (workerPreSave sampleWorker).categories = ["plumbing", "general"] := by
  have h := (workerPreSave_spec sampleWorker).1 rfl (by decide)
  rw [h]
  decide

/-- Counterexample to C5 as stated: a worker whose category list is empty —
a list different from `["general"]` — also has the strict category filter
skipped, so the filter is not skipped *exactly* when the category set is
`{general}`. -/
theorem categoryFilter_empty_also_skipped :
    categoryFilterApplied ([] : List String) = false ∧
    ([] : List String) ≠ ["general"] := by decide

/-- C5 (amended): the strict category filter of the nearby-jobs query is
skipped exactly when the worker's category list is empty or is exactly
`["general"]`; such workers pass for every job category, and a worker with a
non-empty, non-`["general"]` category list that does not contain the job's
category is excluded. -/
theorem nearbyCategoryMatch_spec (cats : List String) (jobCat : String) :
    (categoryFilterApplied cats = false ↔ cats = [] ∨ cats = ["general"]) ∧
    ((cats = [] ∨ cats = ["general"]) → nearbyCategoryMatch cats jobCat = true) ∧
    (cats ≠ [] → cats ≠ ["general"] → jobCat ∉ cats →
      nearbyCategoryMatch cats jobCat = false) := by
  have hkey : categoryFilterApplied cats = false ↔ cats = [] ∨ cats = ["general"] := by
    cases cats with
    | nil => simp [categoryFilterApplied]
    | cons a t =>
      cases t with
      | nil =>
        constructor
        · intro hf
          right
          by_cases ha : a = "general"
          · rw [ha]
          · exfalso
            have hc : List.contains [a] "general" = false := by
              cases hc : List.contains [a] "general"
              · rfl
              · exact absurd (List.mem_of_elem_eq_true hc) (by simp [Ne.symm ha])
            rw [categoryFilterApplied, hc] at hf
            simp at hf
        · rintro (h | h)
          · exact absurd h (by simp)
          · rw [h]; decide
      | cons b t2 =>
        constructor
        · intro hf
          exfalso
          rw [categoryFilterApplied] at hf
          simp at hf
        · rintro (h | h) <;> simp at h
  refine ⟨hkey, ?_, ?_⟩
  · intro h
    unfold nearbyCategoryMatch
    rw [if_neg]
    rw [Bool.not_eq_true]
    exact hkey.mpr h
  · intro h1 h2 hmem
    unfold nearbyCategoryMatch
    have happ : categoryFilterApplied cats = true := by
      cases happ : categoryFilterApplied cats
      · exact absurd (hkey.mp happ) (by rintro (h | h) <;> [exact h1 h; exact h2 h])
      · rfl
    rw [if_pos happ]
    cases hc : cats.contains jobCat
    · rfl
    · exact absurd (List.mem_of_elem_eq_true hc) hmem

/-- Witness for C5: a worker with categories `["plumbing"]` is excluded from a
job with category `electrical`, and a worker with categories `["general"]`
passes for it. -/
theorem nearbyCategoryMatch_spec_witness :
    nearbyCategoryMatch ["plumbing"] "electrical" = false ∧
    nearbyCategoryMatch ["general"] "electrical" = true :=
  ⟨(nearbyCategoryMatch_spec ["plumbing"] "electrical").2.2
      (by decide) (by decide) (by decide),
   (nearbyCategoryMatch_spec ["general"] "electrical").2.1 (Or.inr rfl)⟩

end FinderBackend
